import Mathlib

/-!
Shallow embedding of the surfnerd forecast-synthesis and buoy-observation
code (Go), together with theorems settling the frozen claims about it.

Conventions of the embedding:
* Go `float64` fields are modelled as `ℚ` (the claims concern exact
  values, comparisons and linear arithmetic, never rounding).
* Go `time.Time` / `time.Duration` are modelled as `ℤ` (a signed tick
  count); `time.Duration(-1)` is the integer `-1`.
* A Go slice that may be `nil` is modelled as `Option (List _)`:
  `none` is the nil slice, `some []` the empty one.
* A Go function returning `nil` on failure is modelled with an explicit
  result type; a Go runtime panic (slice index out of range) is modelled
  as a distinguished `panic` result.
* Functions of the repository that are only called from the files at hand
  (their own file is absent) are modelled from the spec and marked
  `Modelled from the spec:` in their doc comment.
-/

unseal Rat.mul Rat.add Rat.sub Rat.inv

namespace Surfnerd

/-- The two unit systems of the repository (`units.go` declares exactly two;
spec §4.2.1: "All physical fields are tagged with one of exactly two unit
systems"). -/
inductive UnitSystem where
  | Metric : UnitSystem
  | English : UnitSystem
deriving DecidableEq, Repr

export UnitSystem (Metric English)

/-- The `Location` struct from `location.go`: latitude, longitude, elevation (meters,
signed, negative = depth) and a name. -/
structure Location where
  Latitude : ℚ
  Longitude : ℚ
  Elevation : ℚ
  LocationName : String
deriving DecidableEq, Repr

/-- Modelled from the spec: the NOAA model metadata record (`noaamodel.go`
is not under `src/`). `surfforecast.go` reads `Model.Units` and copies the
whole record into the forecast's metadata (§6: "identifying metadata for
the two contributing model runs", tagged with a unit system). -/
structure NOAAModel where
  Name : String
  Units : UnitSystem
deriving DecidableEq, Repr

/-- One swell component (`swell.go` declares the struct; `surfforecast.go`
populates exactly these fields): height, period, direction and the cached
compass direction string. -/
structure Swell where
  WaveHeight : ℚ
  Period : ℚ
  Direction : ℚ
  CompassDirection : String
deriving DecidableEq, Repr

/-- Modelled from the spec: compass-direction-from-degrees lookup
(`tools.go` is not under `src/`; spec §6 calls it a "pure function,
16/32-point compass rose or similar"). A 16-point rose: each sector is
22.5° wide, centred on its heading. Only totality and determinism of this
lookup matter to the claims. -/
def DegreeToDirection (degree : ℚ) : String :=
  if degree < 45/4 then "N"
  else if degree < 135/4 then "NNE"
  else if degree < 225/4 then "NE"
  else if degree < 315/4 then "ENE"
  else if degree < 405/4 then "E"
  else if degree < 495/4 then "ESE"
  else if degree < 585/4 then "SE"
  else if degree < 675/4 then "SSE"
  else if degree < 765/4 then "S"
  else if degree < 855/4 then "SSW"
  else if degree < 945/4 then "SW"
  else if degree < 1035/4 then "WSW"
  else if degree < 1125/4 then "W"
  else if degree < 1215/4 then "WNW"
  else if degree < 1305/4 then "NW"
  else if degree < 1395/4 then "NNW"
  else "N"

/-- Go's `math.Abs` over the rational model. -/
def mathAbs (x : ℚ) : ℚ := if x < 0 then -x else x

/-- Go's `math.Min` over the rational model. -/
def mathMin (x y : ℚ) : ℚ := if x < y then x else y

/-- Go's `math.Max` over the rational model. -/
def mathMax (x y : ℚ) : ℚ := if x < y then y else x

/-- Modelled from the spec: `Swell.BreakingWaveHeights` (`swell.go` is not
under `src/`; spec §4.1 gives the design-level algorithm). A refraction
attenuation factor comes from the angular difference between swell
direction and the beach angle (full exposure when aligned, linearly
reduced, zero at and beyond ±90°); a bounded shoaling amplification factor
comes from period, slope and local depth (larger for shallower water and
steeper slope, no division by zero since the denominator is `1 + depth`);
refraction × shoaling × open-water height gives the nearshore estimate,
which the breaking criterion (height ≈ 0.78 × depth) caps; the result is a
(min, max) pair, both clamped to be nonnegative. All arithmetic is over
`ℚ`, so no NaN or infinity can arise. -/
def Swell.BreakingWaveHeights (s : Swell) (beachAngle waterElevation beachSlope : ℚ) :
    ℚ × ℚ :=
  let delta0 : ℚ := mathAbs (s.Direction - beachAngle)
  let delta : ℚ := if delta0 > 180 then 360 - delta0 else delta0
  let refraction : ℚ := if delta ≥ 90 then 0 else (90 - delta) / 90
  let depth : ℚ := mathMax 0 (-waterElevation)
  let shoaling : ℚ := 1 + (s.Period * beachSlope) / (1 + depth)
  let nearshore : ℚ := refraction * shoaling * s.WaveHeight
  let breakingLimit : ℚ := (39/50) * depth
  let maximum : ℚ := mathMax 0 (mathMin nearshore breakingLimit)
  ((4/5) * maximum, maximum)

/-- The swell-ranking decision of `NewSurfForecast` (surfforecast.go lines
130–169), factored over the three maximum breaking heights. Given the
maxima `a`, `b`, `c` of swells one, two and three, it returns the indices
(0 = swell one, 1 = swell two, 2 = swell three) assigned to
(primary, secondary, tertiary), following the source's strictly-greater
comparisons branch for branch. -/
def rankIndices (a b c : ℚ) : Fin 3 × Fin 3 × Fin 3 :=
  if a > b then
    if a > c then
      if b > c then (0, 1, 2) else (0, 2, 1)
    else
      (2, 0, 1)
  else
    if b > c then
      if a > c then (1, 0, 2) else (1, 2, 0)
    else
      (2, 1, 0)

/-- One record of the wave-model forecast series (`waveforecastitem.go` is
not under `src/`; the fields are exactly those `surfforecast.go` reads:
date/time, surface wind estimate, and the primary / secondary / wind-swell
height, period and direction; spec §6 lists the same record shape). -/
structure WaveForecastItem where
  Date : String
  Time : String
  SurfaceWindSpeed : ℚ
  SurfaceWindDirection : ℚ
  PrimarySwellWaveHeight : ℚ
  PrimarySwellPeriod : ℚ
  PrimarySwellDirection : ℚ
  SecondarySwellWaveHeight : ℚ
  SecondarySwellPeriod : ℚ
  SecondarySwellDirection : ℚ
  WindSwellWaveHeight : ℚ
  WindSwellPeriod : ℚ
  WindSwellDirection : ℚ
deriving DecidableEq, Repr

/-- One record of the wind-model forecast series (fields read by
`surfforecast.go`; spec §6: "{time, wind speed, gust, direction}"). -/
structure WindForecastItem where
  Date : String
  Time : String
  WindSpeed : ℚ
  WindGustSpeed : ℚ
  WindDirection : ℚ
deriving DecidableEq, Repr

/-- The wave-model forecast container (`waveforecast.go` is not under
`src/`): model metadata, model grid-point location, and the record series.
`ForecastData` is `Option` to distinguish the nil slice from the empty
one, as `NewSurfForecast` does. -/
structure WaveForecast where
  Model : NOAAModel
  Location : Location
  ForecastData : Option (List WaveForecastItem)
deriving DecidableEq, Repr

/-- The wind-model forecast container, shaped like `WaveForecast`. -/
structure WindForecast where
  Model : NOAAModel
  Location : Location
  ForecastData : Option (List WindForecastItem)
deriving DecidableEq, Repr

/-- The length unit conversion factor into the target system (1 ft =
381/1250 m exactly); speeds use the same two systems. Part of the
spec-modelled unit conversion (§4.2.1, a "component-wise linear
transform"). -/
def lengthFactor : UnitSystem → ℚ
  | Metric => 381/1250
  | English => 1250/381

/-- Modelled from the spec: §4.2.1 conversion of one wave record
(component-wise linear; lengths and speeds scaled, periods and directions
dimensionless/angular hence unchanged). -/
def WaveForecastItem.ChangeUnits (w : WaveForecastItem) (u : UnitSystem) :
    WaveForecastItem :=
  { w with
    SurfaceWindSpeed := lengthFactor u * w.SurfaceWindSpeed
    PrimarySwellWaveHeight := lengthFactor u * w.PrimarySwellWaveHeight
    SecondarySwellWaveHeight := lengthFactor u * w.SecondarySwellWaveHeight
    WindSwellWaveHeight := lengthFactor u * w.WindSwellWaveHeight }

/-- Modelled from the spec: §4.2.1 conversion of one wind record. -/
def WindForecastItem.ChangeUnits (w : WindForecastItem) (u : UnitSystem) :
    WindForecastItem :=
  { w with
    WindSpeed := lengthFactor u * w.WindSpeed
    WindGustSpeed := lengthFactor u * w.WindGustSpeed }

/-- Modelled from the spec: `WaveForecast.ChangeUnits` (`waveforecast.go`
is not under `src/`). No-op when the system already matches; otherwise
each record is converted and the model is retagged with the new system. -/
def WaveForecast.ChangeUnits (f : WaveForecast) (u : UnitSystem) : WaveForecast :=
  if f.Model.Units = u then f
  else
    { f with
      Model := { f.Model with Units := u }
      ForecastData := f.ForecastData.map (List.map (WaveForecastItem.ChangeUnits · u)) }

/-- Modelled from the spec: `WindForecast.ChangeUnits`, shaped like
`WaveForecast.ChangeUnits`. -/
def WindForecast.ChangeUnits (f : WindForecast) (u : UnitSystem) : WindForecast :=
  if f.Model.Units = u then f
  else
    { f with
      Model := { f.Model with Units := u }
      ForecastData := f.ForecastData.map (List.map (WindForecastItem.ChangeUnits · u)) }

/-- One record of the synthesized surf forecast (`surfforecastitem.go` is
not under `src/`; the fields are exactly those `NewSurfForecast` assigns,
and match the spec's ForecastItem of §3). -/
structure SurfForecastItem where
  Date : String
  Time : String
  WindSpeed : ℚ
  WindGustSpeed : ℚ
  WindDirection : ℚ
  WindCompassDirection : String
  PrimarySwellComponent : Swell
  SecondarySwellComponent : Swell
  TertiarySwellComponent : Swell
  MinimumBreakingHeight : ℚ
  MaximumBreakingHeight : ℚ
deriving DecidableEq, Repr

/-- The Go zero value `SurfForecastItem{}`. -/
def SurfForecastItem.empty : SurfForecastItem :=
  { Date := "", Time := "", WindSpeed := 0, WindGustSpeed := 0, WindDirection := 0
    WindCompassDirection := ""
    PrimarySwellComponent := ⟨0, 0, 0, ""⟩
    SecondarySwellComponent := ⟨0, 0, 0, ""⟩
    TertiarySwellComponent := ⟨0, 0, 0, ""⟩
    MinimumBreakingHeight := 0, MaximumBreakingHeight := 0 }

instance : Inhabited SurfForecastItem := ⟨SurfForecastItem.empty⟩

/-- The `SurfForecast` struct of `surfforecast.go`. -/
structure SurfForecast where
  Location : Location
  BeachAngle : ℚ
  BeachSlope : ℚ
  Units : UnitSystem
  ForecastData : List SurfForecastItem
  WaveModel : NOAAModel
  WaveModelLocation : Surfnerd.Location
  WindModel : NOAAModel
  WindModelLocation : Surfnerd.Location
deriving DecidableEq, Repr

/-- Modelled from the spec: `SurfForecastItem.ChangeUnits`
(`surfforecastitem.go` is not under `src/`; §4.2.1 component-wise linear
conversion over one record at a time). Its exact shape is irrelevant to
the claims — only `SurfForecast.ChangeUnits`'s guard is at issue. -/
def SurfForecastItem.ChangeUnits (it : SurfForecastItem) (u : UnitSystem) :
    SurfForecastItem :=
  { it with
    WindSpeed := lengthFactor u * it.WindSpeed
    WindGustSpeed := lengthFactor u * it.WindGustSpeed
    MinimumBreakingHeight := lengthFactor u * it.MinimumBreakingHeight
    MaximumBreakingHeight := lengthFactor u * it.MaximumBreakingHeight }

/-- The method `SurfForecast.ChangeUnits` (surfforecast.go lines 25–35): early return
when the unit system already matches, otherwise every forecast item is
converted in place and the tag updated. -/
def SurfForecast.ChangeUnits (s : SurfForecast) (newUnits : UnitSystem) : SurfForecast :=
  if s.Units = newUnits then s
  else
    { s with
      ForecastData := s.ForecastData.map (SurfForecastItem.ChangeUnits · newUnits)
      Units := newUnits }

/-- The observable outcome of `NewSurfForecast`: a Go runtime panic
(wind-series index out of range), the nil return, or a forecast. -/
inductive SynthResult where
  | panic : SynthResult
  | nilForecast : SynthResult
  | ok : SurfForecast → SynthResult
deriving DecidableEq, Repr

/-- Assembly of one `SurfForecastItem` (the body of the loop of
`NewSurfForecast`, surfforecast.go lines 92–172): wind fields from the
wind record when one is supplied, else from the wave record's surface wind
with gust sentinel −1; the three swell components built from the wave
record; ranking by `rankIndices` over the maximum breaking heights, with
the primary component's breaking range copied onto the item. -/
def buildItem (beachAngle beachSlope : ℚ) (waveModelLocation : Location)
    (w : WaveForecastItem) (wind : Option WindForecastItem) : SurfForecastItem :=
  let swellOne : Swell :=
    { WaveHeight := w.PrimarySwellWaveHeight, Period := w.PrimarySwellPeriod
      Direction := w.PrimarySwellDirection
      CompassDirection := DegreeToDirection w.PrimarySwellDirection }
  let one := swellOne.BreakingWaveHeights beachAngle waveModelLocation.Elevation beachSlope
  let swellTwo : Swell :=
    { WaveHeight := w.SecondarySwellWaveHeight, Period := w.SecondarySwellPeriod
      Direction := w.SecondarySwellDirection
      CompassDirection := DegreeToDirection w.SecondarySwellDirection }
  let two := swellTwo.BreakingWaveHeights beachAngle waveModelLocation.Elevation beachSlope
  let swellThree : Swell :=
    { WaveHeight := w.WindSwellWaveHeight, Period := w.WindSwellPeriod
      Direction := w.WindSwellDirection
      CompassDirection := DegreeToDirection w.WindSwellDirection }
  let three := swellThree.BreakingWaveHeights beachAngle waveModelLocation.Elevation beachSlope
  let pick : Fin 3 → Swell := fun j => match j with
    | 0 => swellOne | 1 => swellTwo | 2 => swellThree
  let range : Fin 3 → ℚ × ℚ := fun j => match j with
    | 0 => one | 1 => two | 2 => three
  let ranked := rankIndices one.2 two.2 three.2
  { Date := w.Date
    Time := w.Time
    WindSpeed := match wind with
      | some x => x.WindSpeed
      | none => w.SurfaceWindSpeed
    WindGustSpeed := match wind with
      | some x => x.WindGustSpeed
      | none => -1
    WindDirection := match wind with
      | some x => x.WindDirection
      | none => w.SurfaceWindDirection
    WindCompassDirection := match wind with
      | some x => DegreeToDirection x.WindDirection
      | none => DegreeToDirection w.SurfaceWindDirection
    PrimarySwellComponent := pick ranked.1
    SecondarySwellComponent := pick ranked.2.1
    TertiarySwellComponent := pick ranked.2.2
    MinimumBreakingHeight := (range ranked.1).1
    MaximumBreakingHeight := (range ranked.1).2 }

/-- The loop of `NewSurfForecast` when wind data is present: each wave
record is paired with the wind record at the same index
(`windForecast.ForecastData[i]`); a wave record with no wind record at its
index is the out-of-range access, a Go panic, modelled as `none`. -/
def synthWithWind (beachAngle beachSlope : ℚ) (waveModelLocation : Location) :
    List WaveForecastItem → List WindForecastItem → Option (List SurfForecastItem)
  | [], _ => some []
  | _ :: _, [] => none
  | w :: ws, x :: xs =>
    (synthWithWind beachAngle beachSlope waveModelLocation ws xs).map
      (buildItem beachAngle beachSlope waveModelLocation w (some x) :: ·)

/-- The unit normalization `NewSurfForecast` applies to the caller's wave
forecast (surfforecast.go lines 61–63): convert to Metric in place when
the model is tagged otherwise. -/
def normalizeWave (waveForecast : WaveForecast) : WaveForecast :=
  if waveForecast.Model.Units ≠ Metric
  then waveForecast.ChangeUnits Metric else waveForecast

/-- The unit normalization `NewSurfForecast` applies to the caller's wind
forecast (surfforecast.go lines 64–66). -/
def normalizeWind (windForecast : WindForecast) : WindForecast :=
  if windForecast.Model.Units ≠ Metric
  then windForecast.ChangeUnits Metric else windForecast

/-- The `noWindData` flag of `NewSurfForecast` (surfforecast.go lines
84–89): set exactly when the wind forecast's record series is nil or
empty — a series-wide decision. -/
def noWindDataOf (windF : WindForecast) : Bool :=
  match windF.ForecastData with
  | none => true
  | some l => l.length < 1

/-- The per-series loop of `NewSurfForecast` (surfforecast.go lines
92–173), producing the surf forecast items: entirely from wave data in
the fallback case, else pairing each wave record with the wind record at
the same index (`none` = the out-of-range panic). -/
def synthItems (beachAngle beachSlope : ℚ) (waveLoc : Location)
    (waveData : List WaveForecastItem) (windF : WindForecast) :
    Option (List SurfForecastItem) :=
  if noWindDataOf windF then
    some (waveData.map (fun w => buildItem beachAngle beachSlope waveLoc w none))
  else
    synthWithWind beachAngle beachSlope waveLoc waveData (windF.ForecastData.getD [])

/-- The output record `NewSurfForecast` assembles (surfforecast.go lines
54–75): target location and geometry, Metric units, the items, and the
two models' metadata. -/
def assembleForecast (loc : Location) (beachAngle beachSlope : ℚ)
    (waveF : WaveForecast) (windF : WindForecast)
    (items : List SurfForecastItem) : SurfForecast :=
  { Location := loc
    BeachAngle := beachAngle
    BeachSlope := beachSlope
    Units := Metric
    ForecastData := items
    WaveModel := waveF.Model
    WaveModelLocation := waveF.Location
    WindModel := windF.Model
    WindModelLocation := windF.Location }

/-- The body of `NewSurfForecast` after unit normalization (surfforecast.go
lines 68–175): nil out when the wave data is nil or empty; otherwise run
the per-index loop and panic if it indexes out of range. -/
def synthesize (loc : Location) (beachAngle beachSlope : ℚ)
    (waveF : WaveForecast) (windF : WindForecast) : SynthResult :=
  match waveF.ForecastData with
  | none => .nilForecast
  | some waveData =>
    if waveData.length < 1 then .nilForecast
    else
      match synthItems beachAngle beachSlope waveF.Location waveData windF with
      | none => .panic
      | some items => .ok (assembleForecast loc beachAngle beachSlope waveF windF items)

/-- The constructor `NewSurfForecast` (surfforecast.go lines 53–175). The result carries,
besides the synthesis outcome, the two input forecasts as the function
leaves them: the Go code mutates the caller's forecasts in place when it
normalizes their units to Metric. -/
def NewSurfForecast (loc : Location) (beachAngle beachSlope : ℚ)
    (waveForecast : WaveForecast) (windForecast : WindForecast) :
    SynthResult × WaveForecast × WindForecast :=
  (synthesize loc beachAngle beachSlope (normalizeWave waveForecast)
      (normalizeWind windForecast),
    normalizeWave waveForecast, normalizeWind windForecast)

/-- The buoy observation record of `buoyitem.go` (all the fields the
struct declares), plus the `Date` timestamp that `buoy.go` reads and
writes on the same record (`buoy.go` postdates the struct snapshot:
`ParseRawLatestBuoyData` sets `.Date` and `FindConditionsForDateAndTime`
compares it). `Date` is the tick count of the parsed report time;
directional readings are kept numeric as `buoyitem.go` declares them. -/
structure BuoyItem where
  Time : String
  Date : ℤ
  WindDirection : ℚ
  WindSpeed : ℚ
  WindGust : ℚ
  SignificantWaveHeight : ℚ
  DominantWavePeriod : ℚ
  AveragePeriod : ℚ
  DominantWaveDirection : ℚ
  MeanWaveDirection : ℚ
  SwellWaveHeight : ℚ
  SwellWavePeriod : ℚ
  SwellWaveDirection : ℚ
  WindSwellWaveHeight : ℚ
  WindSwellWavePeriod : ℚ
  WindSwellDirection : ℚ
  Steepness : String
  Pressure : ℚ
  AirTemperature : ℚ
  WaterTemperature : ℚ
  DewpointTemperature : ℚ
  Visibility : ℚ
  PressureTendency : ℚ
  WaterLevel : ℚ
deriving DecidableEq

/-- The Go zero value `BuoyItem{}`. -/
def BuoyItem.empty : BuoyItem :=
  { Time := "", Date := 0, WindDirection := 0, WindSpeed := 0, WindGust := 0
    SignificantWaveHeight := 0, DominantWavePeriod := 0, AveragePeriod := 0
    DominantWaveDirection := 0, MeanWaveDirection := 0
    SwellWaveHeight := 0, SwellWavePeriod := 0, SwellWaveDirection := 0
    WindSwellWaveHeight := 0, WindSwellWavePeriod := 0, WindSwellDirection := 0
    Steepness := "", Pressure := 0, AirTemperature := 0, WaterTemperature := 0
    DewpointTemperature := 0, Visibility := 0, PressureTendency := 0, WaterLevel := 0 }

instance : Inhabited BuoyItem := ⟨BuoyItem.empty⟩

/-- The method `BuoyItem.MergeLatestBuoyReading` (buoyitem.go lines 38–51): the
incoming latest reading overwrites time, the wind fields, the primary wave
statistics and the meteorology fields; every other field of the receiver
is left as it was. -/
def BuoyItem.MergeLatestBuoyReading (b newBuoyData : BuoyItem) : BuoyItem :=
  { b with
    Time := newBuoyData.Time
    WindDirection := newBuoyData.WindDirection
    WindSpeed := newBuoyData.WindSpeed
    WindGust := newBuoyData.WindGust
    SignificantWaveHeight := newBuoyData.SignificantWaveHeight
    DominantWavePeriod := newBuoyData.DominantWavePeriod
    AveragePeriod := newBuoyData.AveragePeriod
    MeanWaveDirection := newBuoyData.MeanWaveDirection
    Pressure := newBuoyData.Pressure
    AirTemperature := newBuoyData.AirTemperature
    WaterTemperature := newBuoyData.WaterTemperature
    DewpointTemperature := newBuoyData.DewpointTemperature }

/-- The `Buoy` of `buoy.go`, restricted to the fields the claims touch:
the station identifier and the observation series (`Option` distinguishes
the nil slice from the empty one, as the Go code does). -/
structure Buoy where
  StationID : String
  BuoyData : Option (List BuoyItem)
deriving DecidableEq

/-- The body of the scan loop of `FindConditionsForDateAndTime` (buoy.go
lines 351–357): keep the incoming observation only when the absolute value
of its signed delta to the query is strictly smaller than the current
minimum's. -/
def nearerReading (date : ℤ) (acc : BuoyItem × ℤ) (item : BuoyItem) : BuoyItem × ℤ :=
  let newDuration := date - item.Date
  if newDuration.natAbs < acc.2.natAbs then (item, newDuration) else acc

/-- The method `Buoy.FindConditionsForDateAndTime` (buoy.go lines 341–360): sentinel
`(BuoyItem{}, -1)` on a nil or empty series; otherwise a linear scan
keeping the observation whose time delta to the query has the strictly
smallest absolute value (so the earliest of equally-close observations is
kept), returning it with the signed delta `date - observation.Date`. -/
def Buoy.FindConditionsForDateAndTime (b : Buoy) (date : ℤ) : BuoyItem × ℤ :=
  match b.BuoyData with
  | none => (BuoyItem.empty, -1)
  | some [] => (BuoyItem.empty, -1)
  | some (first :: rest) =>
    rest.foldl (nearerReading date) (first, date - first.Date)

/-- Go's `strings.Split` for a one-character separator, over the
character list of the string: split around every occurrence of the
separator; the result always has at least one (possibly empty) group.
(Defined structurally so that concrete parses evaluate.) -/
def splitOnChar (sep : Char) : List Char → List (List Char)
  | [] => [[]]
  | c :: cs =>
    let r := splitOnChar sep cs
    if c = sep then [] :: r
    else
      match r with
      | [] => [[c]]
      | g :: gs => (c :: g) :: gs

/-- Go's `strings.Split(s, sep)` for the one-character separators the
buoy parser uses (`"\n"`, `":"`, `" "`). -/
def goSplit (s : String) (sep : Char) : List String :=
  (splitOnChar sep s.data).map (fun l => ⟨l⟩)

/-- Go's `strings.TrimSpace`: strip leading and trailing whitespace. -/
def goTrimSpace (s : String) : String :=
  ⟨((s.data.dropWhile Char.isWhitespace).reverse.dropWhile Char.isWhitespace).reverse⟩

/-- Modelled from the spec: the external collaborators
`ParseRawLatestBuoyData` calls whose own code is not under `src/` — the
numeric token parser (`strconv.ParseFloat` with the error discarded), the
report-time parser (`time.Parse` with the latest layout, error discarded)
and `BuoyItem.InterpolateDominantWaveDirection` (the directional-reading
heuristic; spec §6 treats tokenization and lookups as external). Each is
an arbitrary deterministic total function. -/
structure ParseEnv where
  parseFloat : String → ℚ
  parseTime : String → ℤ
  interpolateDominantWaveDirection : BuoyItem → BuoyItem

/-- The per-line step of the parsing loop of `ParseRawLatestBuoyData`
(buoy.go lines 132–175): split the line at `:`, take as value the first
space-separated token of the trimmed remainder, and dispatch on the label;
the two boolean flags record whether the first "Period" / "Direction"
occurrence (primary swell) has been consumed, so the second goes to the
wind swell. -/
def parseLatestLine (env : ParseEnv) (st : BuoyItem × Bool × Bool) (line : String) :
    BuoyItem × Bool × Bool :=
  let comps := goSplit line ':'
  if comps.length < 2 then st
  else
    let item := st.1
    let swellPeriodRead := st.2.1
    let swellDirectionRead := st.2.2
    let label := comps.headD ""
    let rawValue := (goSplit (goTrimSpace (comps.getD 1 "")) ' ').headD ""
    if label = "Seas" then
      ({ item with SignificantWaveHeight := env.parseFloat rawValue },
        swellPeriodRead, swellDirectionRead)
    else if label = "Peak Period" then
      ({ item with DominantWavePeriod := env.parseFloat rawValue },
        swellPeriodRead, swellDirectionRead)
    else if label = "Pres" then
      ({ item with Pressure := env.parseFloat rawValue },
        swellPeriodRead, swellDirectionRead)
    else if label = "Air Temp" then
      ({ item with AirTemperature := env.parseFloat rawValue },
        swellPeriodRead, swellDirectionRead)
    else if label = "Water Temp" then
      ({ item with WaterTemperature := env.parseFloat rawValue },
        swellPeriodRead, swellDirectionRead)
    else if label = "Dew Point" then
      ({ item with DewpointTemperature := env.parseFloat rawValue },
        swellPeriodRead, swellDirectionRead)
    else if label = "Swell" then
      ({ item with SwellWaveHeight := env.parseFloat rawValue },
        swellPeriodRead, swellDirectionRead)
    else if label = "Wind Wave" then
      ({ item with WindSwellWaveHeight := env.parseFloat rawValue },
        swellPeriodRead, swellDirectionRead)
    else if label = "Period" then
      if !swellPeriodRead then
        ({ item with SwellWavePeriod := env.parseFloat rawValue },
          true, swellDirectionRead)
      else
        ({ item with WindSwellWavePeriod := env.parseFloat rawValue },
          swellPeriodRead, swellDirectionRead)
    else if label = "Direction" then
      if !swellDirectionRead then
        ({ item with SwellWaveDirection := env.parseFloat rawValue },
          swellPeriodRead, true)
      else
        ({ item with WindSwellDirection := env.parseFloat rawValue },
          swellPeriodRead, swellDirectionRead)
    else
      (item, swellPeriodRead, swellDirectionRead)

/-- The method `Buoy.ParseRawLatestBuoyData` (buoy.go lines 117–190): fewer than six
lines is a parse error; otherwise line 4 gives the report time, the lines
from index 5 feed the labelled-value loop, the directional heuristic runs,
and the resulting item either becomes the single element of a nil/empty
series or is merged over the most recent slot with
`MergeLatestBuoyReading`. -/
def Buoy.ParseRawLatestBuoyData (env : ParseEnv) (b : Buoy) (rawBuoyData : String) :
    Except String Buoy :=
  let rawBuoyLineData := goSplit rawBuoyData '\n'
  if rawBuoyLineData.length < 6 then
    .error "Could not parse latest buoy data"
  else
    let rawTime := rawBuoyLineData.getD 4 ""
    let start : BuoyItem := { BuoyItem.empty with Date := env.parseTime rawTime }
    let parsed := (rawBuoyLineData.drop 5).foldl (parseLatestLine env) (start, false, false)
    let buoyDataItem := env.interpolateDominantWaveDirection parsed.1
    match b.BuoyData with
    | none => .ok { b with BuoyData := some [buoyDataItem] }
    | some [] => .ok { b with BuoyData := some [buoyDataItem] }
    | some (first :: rest) =>
      .ok { b with BuoyData := some (first.MergeLatestBuoyReading buoyDataItem :: rest) }

/-! ## Claim C4 — zero wave height gives a (0, 0) breaking range -/

/-- C4: for every swell component with `WaveHeight = 0`,
`BreakingWaveHeights` returns `(0, 0)` whatever the period, direction,
beach angle, nearshore elevation and beach slope are; the computation is
total over `ℚ` (no division by zero, no NaN, no infinity). -/
theorem breakingWaveHeights_zero_height (period direction : ℚ) (compass : String)
    (beachAngle waterElevation beachSlope : ℚ) :
    Swell.BreakingWaveHeights ⟨0, period, direction, compass⟩
      beachAngle waterElevation beachSlope = (0, 0) := by
  unfold Swell.BreakingWaveHeights mathAbs mathMin mathMax
  simp only [mul_zero, Prod.mk.injEq]
  split_ifs <;> constructor <;> linarith

/-! ## Claim C9 — unit conversion is a no-op when systems match -/

/-- C9: for every `SurfForecast` and unit system, converting to the system
the forecast is already tagged with leaves the forecast, including every
item of its forecast data, unchanged. -/
theorem changeUnits_same_system_noop (s : SurfForecast) (u : UnitSystem)
    (h : s.Units = u) : s.ChangeUnits u = s := by
  unfold SurfForecast.ChangeUnits
  simp [h]

/-- A concrete forecast witnessing `changeUnits_same_system_noop`. -/
def sampleForecast : SurfForecast :=
  { Location := ⟨41, 288, 0, "beach"⟩, BeachAngle := 180, BeachSlope := 1/50
    Units := Metric
    ForecastData := [SurfForecastItem.empty]
    WaveModel := ⟨"multi_1.at_10m", Metric⟩, WaveModelLocation := ⟨41, 288, -5, "gp"⟩
    WindModel := ⟨"gfs", Metric⟩, WindModelLocation := ⟨41, 288, 0, "gp"⟩ }

/-- Witness for C9 at a concrete forecast already in Metric. -/
theorem changeUnits_same_system_noop_witness :
    sampleForecast.Units = Metric
      ∧ sampleForecast.ChangeUnits Metric = sampleForecast :=
  ⟨rfl, changeUnits_same_system_noop sampleForecast Metric rfl⟩

/-! ## Claim C5 — which fields the latest-shape merge replaces -/

/-- C5 counterexample: the latest-shape report does carry the swell height
(`ParseRawLatestBuoyData` fills it from the "Swell" token), yet
`MergeLatestBuoyReading` does not replace it — the prior value 1 survives
an incoming 2 — while `Pressure`, a field outside the claim's replaced
set, is replaced (3 becomes 4). -/
theorem mergeLatest_counterexample :
    ((BuoyItem.MergeLatestBuoyReading
        { BuoyItem.empty with SwellWaveHeight := 1, Pressure := 3 }
        { BuoyItem.empty with SwellWaveHeight := 2, Pressure := 4 }).SwellWaveHeight = 1)
    ∧ ((BuoyItem.MergeLatestBuoyReading
        { BuoyItem.empty with SwellWaveHeight := 1, Pressure := 3 }
        { BuoyItem.empty with SwellWaveHeight := 2, Pressure := 4 }).SwellWaveHeight ≠ 2)
    ∧ ((BuoyItem.MergeLatestBuoyReading
        { BuoyItem.empty with SwellWaveHeight := 1, Pressure := 3 }
        { BuoyItem.empty with SwellWaveHeight := 2, Pressure := 4 }).Pressure = 4)
    ∧ ((BuoyItem.MergeLatestBuoyReading
        { BuoyItem.empty with SwellWaveHeight := 1, Pressure := 3 }
        { BuoyItem.empty with SwellWaveHeight := 2, Pressure := 4 }).Pressure ≠ 3) := by
  refine ⟨rfl, by decide, rfl, by decide⟩

/-- C5 (amended): `MergeLatestBuoyReading` replaces exactly the time, the
wind fields, the primary wave statistics (significant height, dominant
period, average period, mean direction) and the meteorology fields
(pressure, air/water/dewpoint temperature); every other field — in
particular the swell and wind-swell heights, periods and directions —
keeps its prior value. -/
theorem mergeLatest_field_effect (b n : BuoyItem) :
    (b.MergeLatestBuoyReading n).Time = n.Time
    ∧ (b.MergeLatestBuoyReading n).WindDirection = n.WindDirection
    ∧ (b.MergeLatestBuoyReading n).WindSpeed = n.WindSpeed
    ∧ (b.MergeLatestBuoyReading n).WindGust = n.WindGust
    ∧ (b.MergeLatestBuoyReading n).SignificantWaveHeight = n.SignificantWaveHeight
    ∧ (b.MergeLatestBuoyReading n).DominantWavePeriod = n.DominantWavePeriod
    ∧ (b.MergeLatestBuoyReading n).AveragePeriod = n.AveragePeriod
    ∧ (b.MergeLatestBuoyReading n).MeanWaveDirection = n.MeanWaveDirection
    ∧ (b.MergeLatestBuoyReading n).Pressure = n.Pressure
    ∧ (b.MergeLatestBuoyReading n).AirTemperature = n.AirTemperature
    ∧ (b.MergeLatestBuoyReading n).WaterTemperature = n.WaterTemperature
    ∧ (b.MergeLatestBuoyReading n).DewpointTemperature = n.DewpointTemperature
    ∧ (b.MergeLatestBuoyReading n).Date = b.Date
    ∧ (b.MergeLatestBuoyReading n).DominantWaveDirection = b.DominantWaveDirection
    ∧ (b.MergeLatestBuoyReading n).SwellWaveHeight = b.SwellWaveHeight
    ∧ (b.MergeLatestBuoyReading n).SwellWavePeriod = b.SwellWavePeriod
    ∧ (b.MergeLatestBuoyReading n).SwellWaveDirection = b.SwellWaveDirection
    ∧ (b.MergeLatestBuoyReading n).WindSwellWaveHeight = b.WindSwellWaveHeight
    ∧ (b.MergeLatestBuoyReading n).WindSwellWavePeriod = b.WindSwellWavePeriod
    ∧ (b.MergeLatestBuoyReading n).WindSwellDirection = b.WindSwellDirection
    ∧ (b.MergeLatestBuoyReading n).Steepness = b.Steepness
    ∧ (b.MergeLatestBuoyReading n).Visibility = b.Visibility
    ∧ (b.MergeLatestBuoyReading n).PressureTendency = b.PressureTendency
    ∧ (b.MergeLatestBuoyReading n).WaterLevel = b.WaterLevel :=
  ⟨rfl, rfl, rfl, rfl, rfl, rfl, rfl, rfl, rfl, rfl, rfl, rfl,
   rfl, rfl, rfl, rfl, rfl, rfl, rfl, rfl, rfl, rfl, rfl, rfl⟩

/-! ## Claim C1 — swell ranking order and tie-breaks -/

/-- The maximum breaking height assigned to swell index `j` (0 = swell
one, 1 = swell two, 2 = swell three), given the three maxima. -/
def swellMaxAt (a b c : ℚ) (j : Fin 3) : ℚ :=
  if j = 0 then a else if j = 1 then b else c

/-- C1 counterexample: a time step on which all three maximum breaking
heights are exactly equal (the breaking-depth cap makes the three swells
of heights 10, 11 and 12 tie), yet the primary component synthesis
assigns is the wind swell (swell 3, height 12), not swell 1 (height 10),
and the tertiary is swell 1. -/
def tieWaveItem : WaveForecastItem :=
  { Date := "20260101", Time := "0000", SurfaceWindSpeed := 5, SurfaceWindDirection := 190
    PrimarySwellWaveHeight := 10, PrimarySwellPeriod := 8, PrimarySwellDirection := 180
    SecondarySwellWaveHeight := 11, SecondarySwellPeriod := 8, SecondarySwellDirection := 180
    WindSwellWaveHeight := 12, WindSwellPeriod := 8, WindSwellDirection := 180 }

/-- The wave forecast holding `tieWaveItem` (grid point 5 m under water). -/
def tieWaveForecast : WaveForecast :=
  { Model := ⟨"multi_1.at_10m", Metric⟩, Location := ⟨41, 288, -5, "gp"⟩
    ForecastData := some [tieWaveItem] }

/-- An absent (nil) wind forecast series. -/
def tieWindForecast : WindForecast :=
  { Model := ⟨"gfs", Metric⟩, Location := ⟨41, 288, 0, "gp"⟩, ForecastData := none }

/-- C1 counterexample: with the three maximum breaking heights exactly
tied, the synthesized primary swell component is swell 3 (the wind swell,
height 12) and the tertiary is swell 1 (height 10) — not primary = swell 1
as the claim states. -/
theorem rankTie_counterexample :
    (Swell.BreakingWaveHeights ⟨10, 8, 180, "S"⟩ 180 (-5) (1/50)).2
        = (Swell.BreakingWaveHeights ⟨11, 8, 180, "S"⟩ 180 (-5) (1/50)).2
    ∧ (Swell.BreakingWaveHeights ⟨11, 8, 180, "S"⟩ 180 (-5) (1/50)).2
        = (Swell.BreakingWaveHeights ⟨12, 8, 180, "S"⟩ 180 (-5) (1/50)).2
    ∧ (match (NewSurfForecast ⟨41, 288, 0, "beach"⟩ 180 (1/50)
          tieWaveForecast tieWindForecast).1 with
        | .ok f => ((f.ForecastData.headD SurfForecastItem.empty).PrimarySwellComponent.WaveHeight,
            (f.ForecastData.headD SurfForecastItem.empty).TertiarySwellComponent.WaveHeight)
        | _ => (0, 0)) = (12, 10)
    ∧ ((12 : ℚ) ≠ 10) := by
  refine ⟨by decide, by decide, by decide, by decide⟩

/-- C1 (amended): for every time step the three components are ranked as
a strict total order by maximum breaking height descending, but ties keep
the **later**-declared component ahead (the source uses strictly-greater
comparisons whose `else` branches favour the later swell): distinct roles
always; primary strictly above secondary or tied with a larger declared
index; likewise secondary over tertiary; when all three maxima are equal
the order is swell 3, swell 2, swell 1; when swell 1 and swell 2 tie above
swell 3, swell 2 is ranked ahead of swell 1. -/
theorem rankIndices_sorted (a b c : ℚ) :
    ((rankIndices a b c).1 ≠ (rankIndices a b c).2.1
      ∧ (rankIndices a b c).1 ≠ (rankIndices a b c).2.2
      ∧ (rankIndices a b c).2.1 ≠ (rankIndices a b c).2.2)
    ∧ (swellMaxAt a b c (rankIndices a b c).1 > swellMaxAt a b c (rankIndices a b c).2.1
        ∨ (swellMaxAt a b c (rankIndices a b c).1 = swellMaxAt a b c (rankIndices a b c).2.1
            ∧ (rankIndices a b c).2.1 < (rankIndices a b c).1))
    ∧ (swellMaxAt a b c (rankIndices a b c).2.1 > swellMaxAt a b c (rankIndices a b c).2.2
        ∨ (swellMaxAt a b c (rankIndices a b c).2.1 = swellMaxAt a b c (rankIndices a b c).2.2
            ∧ (rankIndices a b c).2.2 < (rankIndices a b c).2.1))
    ∧ (a = b → b = c → rankIndices a b c = (2, 1, 0))
    ∧ (a = b → b > c → rankIndices a b c = (1, 0, 2)) := by
  unfold rankIndices
  split_ifs with h1 h2 h3 h4 h5
  -- (0, 1, 2): a > b, a > c, b > c
  · exact ⟨by decide, Or.inl h1, Or.inl h3,
      fun hab _ => by rw [hab] at h1; exact absurd h1 (lt_irrefl b),
      fun hab _ => by rw [hab] at h1; exact absurd h1 (lt_irrefl b)⟩
  -- (0, 2, 1): a > b, a > c, ¬b > c
  · refine ⟨by decide, Or.inl h2, ?_,
      fun hab _ => by rw [hab] at h1; exact absurd h1 (lt_irrefl b),
      fun hab _ => by rw [hab] at h1; exact absurd h1 (lt_irrefl b)⟩
    rcases lt_or_eq_of_le (not_lt.mp h3) with h | h
    · exact Or.inl h
    · exact Or.inr ⟨h.symm, by decide⟩
  -- (2, 0, 1): a > b, ¬a > c
  · refine ⟨by decide, ?_, Or.inl h1,
      fun hab _ => by rw [hab] at h1; exact absurd h1 (lt_irrefl b),
      fun hab _ => by rw [hab] at h1; exact absurd h1 (lt_irrefl b)⟩
    rcases lt_or_eq_of_le (not_lt.mp h2) with h | h
    · exact Or.inl h
    · exact Or.inr ⟨h.symm, by decide⟩
  -- (1, 0, 2): ¬a > b, b > c, a > c
  · refine ⟨by decide, ?_, Or.inl h5,
      fun hab hbc => by rw [hbc] at h4; exact absurd h4 (lt_irrefl c),
      fun _ _ => rfl⟩
    rcases lt_or_eq_of_le (not_lt.mp h1) with h | h
    · exact Or.inl h
    · exact Or.inr ⟨h.symm, by decide⟩
  -- (1, 2, 0): ¬a > b, b > c, ¬a > c
  · refine ⟨by decide, Or.inl h4, ?_,
      fun hab hbc => by rw [hbc] at h4; exact absurd h4 (lt_irrefl c),
      fun hab hbc => by rw [hab] at h5; exact absurd hbc h5⟩
    rcases lt_or_eq_of_le (not_lt.mp h5) with h | h
    · exact Or.inl h
    · exact Or.inr ⟨h.symm, by decide⟩
  -- (2, 1, 0): ¬a > b, ¬b > c
  · refine ⟨by decide, ?_, ?_, fun _ _ => rfl, fun _ hbc => absurd hbc h4⟩
    · rcases lt_or_eq_of_le (not_lt.mp h4) with h | h
      · exact Or.inl h
      · exact Or.inr ⟨h.symm, by decide⟩
    · rcases lt_or_eq_of_le (not_lt.mp h1) with h | h
      · exact Or.inl h
      · exact Or.inr ⟨h.symm, by decide⟩

/-- Witness for C1's amended ranking at the all-equal tie: the order is
swell 3, swell 2, swell 1. -/
theorem rankIndices_sorted_witness : rankIndices 1 1 1 = (2, 1, 0) :=
  (rankIndices_sorted 1 1 1).2.2.2.1 rfl rfl

/-! ## Claim C6 — nearest-timestamp lookup -/

/-- Invariants of the scan loop of `FindConditionsForDateAndTime`: the
accumulator either survives or is replaced by a list element; the "signed
delta of the kept observation" invariant is preserved; the kept absolute
delta never grows and ends at most every scanned element's absolute
delta. -/
theorem foldl_nearerReading_spec (date : ℤ) (rest : List BuoyItem) :
    ∀ acc : BuoyItem × ℤ,
      (rest.foldl (nearerReading date) acc = acc
          ∨ (rest.foldl (nearerReading date) acc).1 ∈ rest)
      ∧ (acc.2 = date - acc.1.Date →
          (rest.foldl (nearerReading date) acc).2
            = date - (rest.foldl (nearerReading date) acc).1.Date)
      ∧ (rest.foldl (nearerReading date) acc).2.natAbs ≤ acc.2.natAbs
      ∧ ∀ x ∈ rest,
          (rest.foldl (nearerReading date) acc).2.natAbs ≤ (date - x.Date).natAbs := by
  induction rest with
  | nil => exact fun acc => ⟨Or.inl rfl, fun h => h, le_refl _, fun x hx => absurd hx (by simp)⟩
  | cons y ys ih =>
    intro acc
    have hstep : ys.foldl (nearerReading date) (nearerReading date acc y)
        = (y :: ys).foldl (nearerReading date) acc := rfl
    obtain ⟨hmem, hinv, hmono, hmin⟩ := ih (nearerReading date acc y)
    have hcases : nearerReading date acc y = acc
        ∨ nearerReading date acc y = (y, date - y.Date) := by
      by_cases h : (date - y.Date).natAbs < acc.2.natAbs
      · right; simp [nearerReading, h]
      · left; simp [nearerReading, h]
    have hstepmono : (nearerReading date acc y).2.natAbs ≤ acc.2.natAbs := by
      by_cases h : (date - y.Date).natAbs < acc.2.natAbs
      · simpa [nearerReading, h] using le_of_lt h
      · simp [nearerReading, h]
    have hstepy : (nearerReading date acc y).2.natAbs ≤ (date - y.Date).natAbs := by
      by_cases h : (date - y.Date).natAbs < acc.2.natAbs
      · simp [nearerReading, h]
      · simpa [nearerReading, h] using not_lt.mp h
    refine ⟨?_, ?_, ?_, ?_⟩
    · rw [← hstep]
      rcases hmem with hm | hm
      · rcases hcases with hc | hc
        · exact Or.inl (hm.trans hc)
        · refine Or.inr ?_
          rw [hm, hc]
          exact List.mem_cons_self y ys
      · exact Or.inr (List.mem_cons_of_mem y hm)
    · intro hacc
      rw [← hstep]
      refine hinv ?_
      rcases hcases with hc | hc <;> rw [hc]
      · exact hacc
    · rw [← hstep]
      exact le_trans hmono hstepmono
    · intro x hx
      rw [← hstep]
      rcases List.mem_cons.mp hx with hx | hx
      · subst hx
        exact le_trans hmono hstepy
      · exact hmin x hx

/-- C6 (amended): the lookup returns the sentinel pair `(BuoyItem{}, -1)`
when the observation series is nil or empty; on every non-empty series it
returns a member observation minimizing the absolute time delta, together
with the signed duration `query - observation.Date`; on a single-element
series it returns that element. The returned duration is, however, not a
reliable emptiness signal: it also equals −1 whenever the closest
observation lies exactly one tick in the future. -/
theorem findConditions_spec (b : Buoy) (date : ℤ) :
    ((b.BuoyData = none ∨ b.BuoyData = some []) →
        b.FindConditionsForDateAndTime date = (BuoyItem.empty, -1))
    ∧ (∀ l, b.BuoyData = some l → l ≠ [] →
        ((b.FindConditionsForDateAndTime date).1 ∈ l
          ∧ (b.FindConditionsForDateAndTime date).2
              = date - (b.FindConditionsForDateAndTime date).1.Date
          ∧ ∀ x ∈ l, ((b.FindConditionsForDateAndTime date).2).natAbs
              ≤ (date - x.Date).natAbs))
    ∧ (∀ x, b.BuoyData = some [x] →
        b.FindConditionsForDateAndTime date = (x, date - x.Date)) := by
  refine ⟨?_, ?_, ?_⟩
  · rintro (h | h) <;> simp [Buoy.FindConditionsForDateAndTime, h]
  · rintro l hl hne
    obtain ⟨first, rest, rfl⟩ := List.exists_cons_of_ne_nil hne
    have hfind : b.FindConditionsForDateAndTime date
        = rest.foldl (nearerReading date) (first, date - first.Date) := by
      unfold Buoy.FindConditionsForDateAndTime
      rw [hl]
    obtain ⟨hmem, hinv, _, hmin⟩ :=
      foldl_nearerReading_spec date rest (first, date - first.Date)
    refine ⟨?_, ?_, ?_⟩
    · rw [hfind]
      rcases hmem with hm | hm
      · rw [hm]; exact List.mem_cons_self first rest
      · exact List.mem_cons_of_mem first hm
    · rw [hfind]; exact hinv rfl
    · intro x hx
      rw [hfind]
      rcases List.mem_cons.mp hx with hx | hx
      · rw [hx]
        exact (foldl_nearerReading_spec date rest (first, date - first.Date)).2.2.1
      · exact hmin x hx
  · intro x hx
    unfold Buoy.FindConditionsForDateAndTime
    rw [hx]
    rfl

/-- The single-observation buoy (observation one tick after time 0) used
against claim C6. -/
def nearBuoy : Buoy := ⟨"44097", some [{ BuoyItem.empty with Date := 1 }]⟩

/-- C6 counterexample: on `nearBuoy`, a non-empty series, the returned
duration is the sentinel value −1 (the single observation is one tick in
the future), so "duration −1 exactly when the series is nil or empty" is
false. -/
theorem findConditions_sentinel_counterexample :
    ¬(((nearBuoy.FindConditionsForDateAndTime 0).2 = -1)
        ↔ (nearBuoy.BuoyData = none ∨ nearBuoy.BuoyData = some [])) := by
  decide

/-- Witness for C6's amended lookup on the concrete single-element series:
the element itself and the signed delta are returned. -/
theorem findConditions_spec_witness :
    nearBuoy.FindConditionsForDateAndTime 0 = ({ BuoyItem.empty with Date := 1 }, -1) := by
  simpa using (findConditions_spec nearBuoy 0).2.2 { BuoyItem.empty with Date := 1 } rfl

/-! ## Synthesis lemmas shared by claims C2, C3, C7 and C10 -/

/-- Unit normalization keeps the wave series' shape: nil stays nil and a
materialized series keeps its length. -/
theorem normalizeWave_data_shape (f : WaveForecast) :
    ((normalizeWave f).ForecastData = none ↔ f.ForecastData = none)
    ∧ ∀ wl, f.ForecastData = some wl →
        ∃ wl', (normalizeWave f).ForecastData = some wl' ∧ wl'.length = wl.length := by
  unfold normalizeWave WaveForecast.ChangeUnits
  split_ifs with h1
  · constructor
    · simp [Option.map_eq_none']
    · intro wl hw
      rw [hw]
      exact ⟨_, rfl, by simp⟩
  · exact ⟨Iff.rfl, fun wl hw => ⟨wl, hw, rfl⟩⟩

/-- Unit normalization keeps the wind series' shape. -/
theorem normalizeWind_data_shape (f : WindForecast) :
    ((normalizeWind f).ForecastData = none ↔ f.ForecastData = none)
    ∧ ∀ xl, f.ForecastData = some xl →
        ∃ xl', (normalizeWind f).ForecastData = some xl' ∧ xl'.length = xl.length := by
  unfold normalizeWind WindForecast.ChangeUnits
  split_ifs with h1
  · constructor
    · simp [Option.map_eq_none']
    · intro xl hx
      rw [hx]
      exact ⟨_, rfl, by simp⟩
  · exact ⟨Iff.rfl, fun xl hx => ⟨xl, hx, rfl⟩⟩

/-- The paired loop fails (the wind index goes out of range) exactly when
the wind list is shorter than the wave list. -/
theorem synthWithWind_eq_none_iff (ba bs : ℚ) (loc : Location) :
    ∀ (ws : List WaveForecastItem) (xs : List WindForecastItem),
      synthWithWind ba bs loc ws xs = none ↔ xs.length < ws.length := by
  intro ws
  induction ws with
  | nil => intro xs; simp [synthWithWind]
  | cons w ws ih =>
    intro xs
    cases xs with
    | nil => simp [synthWithWind]
    | cons x xs =>
      simp [synthWithWind, Option.map_eq_none', ih xs, Nat.succ_lt_succ_iff]

/-- Index-wise description of the paired loop's output: the item at index
`i` is built from the wave and wind records at index `i`. -/
theorem synthWithWind_get? (ba bs : ℚ) (loc : Location) :
    ∀ (ws : List WaveForecastItem) (xs : List WindForecastItem)
      (items : List SurfForecastItem),
      synthWithWind ba bs loc ws xs = some items →
      ∀ (i : ℕ) (w : WaveForecastItem), ws.get? i = some w →
        ∃ x, xs.get? i = some x
          ∧ items.get? i = some (buildItem ba bs loc w (some x)) := by
  intro ws
  induction ws with
  | nil =>
    intro xs items _ i w hw
    simp at hw
  | cons w0 ws ih =>
    intro xs items hitems i w hw
    cases xs with
    | nil => simp [synthWithWind] at hitems
    | cons x0 xs =>
      rw [synthWithWind] at hitems
      obtain ⟨rest, hrest, hmap⟩ := Option.map_eq_some'.mp hitems
      subst hmap
      cases i with
      | zero =>
        simp only [List.get?_cons_zero, Option.some.injEq] at hw
        subst hw
        exact ⟨x0, rfl, rfl⟩
      | succ i =>
        simp only [List.get?_cons_succ] at hw ⊢
        exact ih xs rest hrest i w hw

/-- Equation lemma: synthesis on a nil wave series. -/
theorem synthesize_data_none (loc : Location) (ba bs : ℚ) (waveF : WaveForecast)
    (windF : WindForecast) (h : waveF.ForecastData = none) :
    synthesize loc ba bs waveF windF = .nilForecast := by
  unfold synthesize
  rw [h]

/-- Equation lemma: synthesis on a materialized wave series. -/
theorem synthesize_data_some (loc : Location) (ba bs : ℚ) (waveF : WaveForecast)
    (windF : WindForecast) (wl : List WaveForecastItem)
    (h : waveF.ForecastData = some wl) :
    synthesize loc ba bs waveF windF =
      if wl.length < 1 then .nilForecast
      else
        match synthItems ba bs waveF.Location wl windF with
        | none => .panic
        | some items => .ok (assembleForecast loc ba bs waveF windF items) := by
  unfold synthesize
  rw [h]

/-- A false `noWindData` flag pins the wind series: it is materialized and
non-empty. -/
theorem noWindDataOf_eq_false (windF : WindForecast)
    (h : noWindDataOf windF = false) :
    ∃ xl, windF.ForecastData = some xl ∧ xl ≠ [] := by
  unfold noWindDataOf at h
  cases hx : windF.ForecastData with
  | none => rw [hx] at h; exact absurd h (by simp)
  | some xl =>
    rw [hx] at h
    refine ⟨xl, rfl, ?_⟩
    intro hnil
    subst hnil
    simp at h

/-- A true `noWindData` flag means the wind series is nil or empty. -/
theorem noWindDataOf_eq_true (windF : WindForecast)
    (h : noWindDataOf windF = true) :
    windF.ForecastData = none ∨ windF.ForecastData = some [] := by
  unfold noWindDataOf at h
  cases hx : windF.ForecastData with
  | none => exact Or.inl rfl
  | some xl =>
    rw [hx] at h
    right
    have hlen : xl.length < 1 := by simpa using h
    cases xl with
    | nil => rfl
    | cons a as => simp at hlen

/-- Characterization of a successful synthesis: the produced forecast is
tagged Metric and its items come either from the series-wide wind
fallback or from the paired loop. -/
theorem synthesize_ok_data (loc : Location) (ba bs : ℚ) (waveF : WaveForecast)
    (windF : WindForecast) (f : SurfForecast)
    (h : synthesize loc ba bs waveF windF = .ok f) :
    f.Units = Metric
    ∧ ∃ wl, waveF.ForecastData = some wl ∧ wl ≠ []
      ∧ (((windF.ForecastData = none ∨ windF.ForecastData = some [])
            ∧ f.ForecastData = wl.map (fun w => buildItem ba bs waveF.Location w none))
        ∨ (∃ xl, windF.ForecastData = some xl ∧ xl ≠ []
            ∧ synthWithWind ba bs waveF.Location wl xl = some f.ForecastData)) := by
  cases hwd : waveF.ForecastData with
  | none =>
    rw [synthesize_data_none loc ba bs waveF windF hwd] at h
    exact absurd h (by simp)
  | some wl =>
    rw [synthesize_data_some loc ba bs waveF windF wl hwd] at h
    by_cases hlen : wl.length < 1
    · rw [if_pos hlen] at h
      exact absurd h (by simp)
    · rw [if_neg hlen] at h
      have hne : wl ≠ [] := by
        intro hnil
        exact hlen (by simp [hnil])
      cases hs : synthItems ba bs waveF.Location wl windF with
      | none => rw [hs] at h; exact absurd h (by simp)
      | some items =>
        rw [hs] at h
        cases h
        refine ⟨rfl, wl, rfl, hne, ?_⟩
        unfold synthItems at hs
        cases hnw : noWindDataOf windF with
        | true =>
          rw [hnw, if_pos rfl] at hs
          injection hs with hs
          exact Or.inl ⟨noWindDataOf_eq_true windF hnw, hs.symm⟩
        | false =>
          rw [hnw] at hs
          rw [if_neg (by simp)] at hs
          obtain ⟨xl, hx, hxne⟩ := noWindDataOf_eq_false windF hnw
          rw [hx] at hs
          exact Or.inr ⟨xl, hx, hxne, hs⟩

/-- Successful synthesis whenever the wave series is non-empty and the
wind series is either flagged absent or at least as long. -/
theorem synthesize_ok_exists (loc : Location) (ba bs : ℚ) (waveF : WaveForecast)
    (windF : WindForecast) (wl : List WaveForecastItem)
    (hwd : waveF.ForecastData = some wl) (hne : wl ≠ [])
    (hwind : noWindDataOf windF = true
      ∨ ∃ xl, windF.ForecastData = some xl ∧ wl.length ≤ xl.length ∧ xl ≠ []) :
    ∃ f, synthesize loc ba bs waveF windF = .ok f := by
  rw [synthesize_data_some loc ba bs waveF windF wl hwd]
  rw [if_neg (by have := List.length_pos.mpr hne; omega)]
  rcases hwind with hnw | ⟨xl, hx, hlen, hxne⟩
  · unfold synthItems
    rw [hnw, if_pos rfl]
    exact ⟨_, rfl⟩
  · have hnw : noWindDataOf windF = false := by
      unfold noWindDataOf
      rw [hx]
      simp [Nat.lt_one_iff, List.length_eq_zero, hxne]
    unfold synthItems
    rw [hnw, if_neg (by simp), hx, Option.getD_some]
    cases hs : synthWithWind ba bs waveF.Location wl xl with
    | none =>
      exfalso
      have := (synthWithWind_eq_none_iff ba bs waveF.Location wl xl).mp hs
      omega
    | some items => exact ⟨_, rfl⟩

/-! ## Claim C2 — wind series present but shorter than the wave series -/

/-- A generic wave record used in the concrete synthesis inputs. -/
def waveItemA : WaveForecastItem :=
  { Date := "20260102", Time := "0600", SurfaceWindSpeed := 3, SurfaceWindDirection := 100
    PrimarySwellWaveHeight := 1, PrimarySwellPeriod := 10, PrimarySwellDirection := 200
    SecondarySwellWaveHeight := 1/2, SecondarySwellPeriod := 6, SecondarySwellDirection := 120
    WindSwellWaveHeight := 3/10, WindSwellPeriod := 3, WindSwellDirection := 200 }

/-- A generic wind record used in the concrete synthesis inputs. -/
def windItemA : WindForecastItem :=
  { Date := "20260102", Time := "0600", WindSpeed := 4, WindGustSpeed := 6
    WindDirection := 150 }

/-- Two wave records against one wind record. -/
def waveTwoItems : WaveForecast :=
  ⟨⟨"multi_1.at_10m", Metric⟩, ⟨41, 288, -5, "gp"⟩, some [waveItemA, waveItemA]⟩

/-- A one-record wind series (present but short). -/
def windOneItem : WindForecast :=
  ⟨⟨"gfs", Metric⟩, ⟨41, 288, 0, "gp"⟩, some [windItemA]⟩

/-- C2 counterexample: with a wave series of two records and a non-empty
wind series of one record, synthesis indexes the wind series out of range
(a Go runtime panic) instead of recovering per index — it does not
succeed. -/
theorem shortWind_counterexample :
    (NewSurfForecast ⟨41, 288, 0, "beach"⟩ 180 (1/50) waveTwoItems windOneItem).1
      = SynthResult.panic := by
  decide

/-- C2 (amended): when the wind series is present (non-empty) but shorter
than the wave series, synthesis panics with an out-of-range wind index and
produces no forecast; the documented fallback only applies series-wide,
when the wind series is absent or empty. -/
theorem shortWind_panics (loc : Location) (ba bs : ℚ) (waveF : WaveForecast)
    (windF : WindForecast) (wl : List WaveForecastItem) (xl : List WindForecastItem)
    (hw : waveF.ForecastData = some wl) (hx : windF.ForecastData = some xl)
    (hxne : xl ≠ []) (hlen : xl.length < wl.length) :
    (NewSurfForecast loc ba bs waveF windF).1 = SynthResult.panic := by
  obtain ⟨wl', hwl', hwlen⟩ := (normalizeWave_data_shape waveF).2 wl hw
  obtain ⟨xl', hxl', hxlen⟩ := (normalizeWind_data_shape windF).2 xl hx
  have hxne' : xl' ≠ [] := by
    intro hnil
    rw [hnil] at hxlen
    exact hxne (List.length_eq_zero.mp hxlen.symm)
  have hlen' : xl'.length < wl'.length := by rw [hwlen, hxlen]; exact hlen
  show synthesize loc ba bs (normalizeWave waveF) (normalizeWind windF) = .panic
  rw [synthesize_data_some loc ba bs _ _ wl' hwl']
  rw [if_neg (by omega)]
  have hnw : noWindDataOf (normalizeWind windF) = false := by
    unfold noWindDataOf
    rw [hxl']
    simp [Nat.lt_one_iff, List.length_eq_zero, hxne']
  unfold synthItems
  rw [hnw, if_neg (by simp), hxl', Option.getD_some]
  rw [(synthWithWind_eq_none_iff ba bs (normalizeWave waveF).Location wl' xl').mpr hlen']

/-- Three wave records against two wind records, for the C2 witness. -/
def waveThreeItems : WaveForecast :=
  ⟨⟨"multi_1.at_10m", Metric⟩, ⟨41, 288, -5, "gp"⟩, some [waveItemA, waveItemA, waveItemA]⟩

/-- A two-record wind series, for the C2 witness. -/
def windTwoItems : WindForecast :=
  ⟨⟨"gfs", Metric⟩, ⟨41, 288, 0, "gp"⟩, some [windItemA, windItemA]⟩

/-- Witness for C2's amended theorem: three wave records, two wind
records, synthesis panics. -/
theorem shortWind_panics_witness :
    (NewSurfForecast ⟨41, 288, 0, "beach"⟩ 180 (1/50) waveThreeItems windTwoItems).1
      = SynthResult.panic :=
  shortWind_panics ⟨41, 288, 0, "beach"⟩ 180 (1/50) waveThreeItems windTwoItems
    [waveItemA, waveItemA, waveItemA] [windItemA, windItemA]
    rfl rfl (by decide) (by decide)

/-! ## Claim C3 — synthesis fails exactly on missing wave data -/

/-- Non-empty wave series used against claim C3. -/
def waveC3 : WaveForecast :=
  ⟨⟨"multi_1.at_10m", Metric⟩, ⟨30, 250, -8, "gp3"⟩, some [waveItemA, waveItemA]⟩

/-- Short non-empty wind series used against claim C3. -/
def windC3 : WindForecast :=
  ⟨⟨"gfs", Metric⟩, ⟨30, 250, 0, "gp3"⟩, some [windItemA]⟩

/-- C3 counterexample: a non-empty wave series for which no output series
is produced — synthesis panics on the short non-empty wind series, so
"for every non-empty wave series an output series is produced" is false. -/
theorem synthesis_nonempty_counterexample :
    waveC3.ForecastData = some [waveItemA, waveItemA]
      ∧ (NewSurfForecast ⟨30, 250, 0, "b3"⟩ 200 (1/25) waveC3 windC3).1
          = SynthResult.panic :=
  ⟨rfl, by decide⟩

/-- C3 (amended): synthesis returns nil (and no partial series) exactly
when the wave series is nil or empty; every non-empty wave series produces
an output series provided the wind series is nil, empty, or at least as
long as the wave series. -/
theorem synthesis_nil_iff (loc : Location) (ba bs : ℚ) (waveF : WaveForecast)
    (windF : WindForecast) :
    ((NewSurfForecast loc ba bs waveF windF).1 = SynthResult.nilForecast
      ↔ (waveF.ForecastData = none ∨ waveF.ForecastData = some []))
    ∧ (∀ wl, waveF.ForecastData = some wl → wl ≠ [] →
        (windF.ForecastData = none ∨ windF.ForecastData = some []
          ∨ ∃ xl, windF.ForecastData = some xl ∧ wl.length ≤ xl.length) →
        ∃ f, (NewSurfForecast loc ba bs waveF windF).1 = SynthResult.ok f) := by
  constructor
  · constructor
    · intro h
      replace h : synthesize loc ba bs (normalizeWave waveF) (normalizeWind windF)
          = .nilForecast := h
      cases hwd : waveF.ForecastData with
      | none => exact Or.inl rfl
      | some wl =>
        obtain ⟨wl', hwl', hwlen⟩ := (normalizeWave_data_shape waveF).2 wl hwd
        rw [synthesize_data_some loc ba bs _ _ wl' hwl'] at h
        by_cases hlen : wl'.length < 1
        · right
          have hwl0 : wl = [] := by
            apply List.length_eq_zero.mp
            omega
          rw [hwl0]
        · rw [if_neg hlen] at h
          cases hs : synthItems ba bs (normalizeWave waveF).Location wl' (normalizeWind windF) with
          | none => rw [hs] at h; exact absurd h (by simp)
          | some items => rw [hs] at h; exact absurd h (by simp)
    · rintro (h | h)
      · exact synthesize_data_none loc ba bs _ _ ((normalizeWave_data_shape waveF).1.mpr h)
      · obtain ⟨wl', hwl', hwlen⟩ := (normalizeWave_data_shape waveF).2 [] h
        replace hwlen : wl' = [] := List.length_eq_zero.mp (by simpa using hwlen)
        show synthesize loc ba bs (normalizeWave waveF) (normalizeWind windF) = .nilForecast
        rw [synthesize_data_some loc ba bs _ _ wl' hwl', if_pos (by simp [hwlen])]
  · intro wl hwd hne hwind
    obtain ⟨wl', hwl', hwlen⟩ := (normalizeWave_data_shape waveF).2 wl hwd
    have hne' : wl' ≠ [] := by
      intro hnil
      rw [hnil] at hwlen
      exact hne (List.length_eq_zero.mp hwlen.symm)
    apply synthesize_ok_exists loc ba bs _ _ wl' hwl' hne'
    rcases hwind with hx | hx | ⟨xl, hx, hlen⟩
    · left
      unfold noWindDataOf
      rw [(normalizeWind_data_shape windF).1.mpr hx]
    · left
      obtain ⟨xl', hxl', hxlen⟩ := (normalizeWind_data_shape windF).2 [] hx
      unfold noWindDataOf
      rw [hxl']
      simpa using hxlen
    · right
      obtain ⟨xl', hxl', hxlen⟩ := (normalizeWind_data_shape windF).2 xl hx
      refine ⟨xl', hxl', by omega, ?_⟩
      intro hnil
      rw [hnil] at hxlen
      have : xl.length = 0 := hxlen.symm
      have : wl.length = 0 := by omega
      exact hne (List.length_eq_zero.mp (by omega))

/-- Witness for C3's amended theorem: a one-record wave series with an
absent wind series synthesizes successfully, and the nil-iff specializes. -/
theorem synthesis_nil_iff_witness :
    ∃ f, (NewSurfForecast ⟨41, 288, 0, "beach"⟩ 180 (1/50)
        (⟨⟨"multi_1.at_10m", Metric⟩, ⟨41, 288, -5, "gp"⟩, some [waveItemA]⟩ : WaveForecast)
        (⟨⟨"gfs", Metric⟩, ⟨41, 288, 0, "gp"⟩, none⟩ : WindForecast)).1
      = SynthResult.ok f :=
  (synthesis_nil_iff ⟨41, 288, 0, "beach"⟩ 180 (1/50)
      ⟨⟨"multi_1.at_10m", Metric⟩, ⟨41, 288, -5, "gp"⟩, some [waveItemA]⟩
      ⟨⟨"gfs", Metric⟩, ⟨41, 288, 0, "gp"⟩, none⟩).2
    [waveItemA] rfl (by decide) (Or.inl rfl)

/-! ## Claim C7 — wind fields of each output item -/

/-- C7: each output item's wind fields are taken from the wind record at
the same index when the (normalized) wind series supplies one, and from
the (normalized) wave record's surface-wind estimate with gust sentinel −1
when the wind series is absent or empty. `waveR`/`windR` are the series as
synthesis leaves them (unit-normalized in place). -/
theorem wind_fields_spec (loc : Location) (ba bs : ℚ) (waveF : WaveForecast)
    (windF : WindForecast) (f : SurfForecast) (waveR : WaveForecast)
    (windR : WindForecast)
    (h : NewSurfForecast loc ba bs waveF windF = (.ok f, waveR, windR))
    (i : ℕ) (wl : List WaveForecastItem) (w : WaveForecastItem)
    (hwl : waveR.ForecastData = some wl) (hw : wl.get? i = some w) :
    ((windR.ForecastData = none ∨ windR.ForecastData = some []) →
        (f.ForecastData.get? i).map
            (fun it => (it.WindSpeed, it.WindGustSpeed, it.WindDirection))
          = some (w.SurfaceWindSpeed, -1, w.SurfaceWindDirection))
    ∧ (∀ xl x, windR.ForecastData = some xl → xl.get? i = some x →
        (f.ForecastData.get? i).map
            (fun it => (it.WindSpeed, it.WindGustSpeed, it.WindDirection))
          = some (x.WindSpeed, x.WindGustSpeed, x.WindDirection)) := by
  have h2 : waveR = normalizeWave waveF := (congrArg (fun p => p.2.1) h).symm
  have h3 : windR = normalizeWind windF := (congrArg (fun p => p.2.2) h).symm
  have h1 : synthesize loc ba bs waveR windR = .ok f := by
    rw [h2, h3]
    exact congrArg (fun p => p.1) h
  obtain ⟨-, wl0, hwd0, -, hcases⟩ := synthesize_ok_data loc ba bs waveR windR f h1
  rw [hwl] at hwd0
  injection hwd0 with hwd0
  subst hwd0
  rcases hcases with ⟨hwind0, hfd⟩ | ⟨xl0, hx0, hxne0, hs0⟩
  · constructor
    · intro _
      rw [hfd, List.get?_map, hw]
      rfl
    · intro xl x hxl hx
      rcases hwind0 with hnone | hempty
      · rw [hnone] at hxl; exact absurd hxl (by simp)
      · rw [hempty] at hxl
        injection hxl with hxl
        subst hxl
        exact absurd hx (by simp)
  · constructor
    · rintro (hnone | hempty)
      · rw [hnone] at hx0; exact absurd hx0.symm (by simp)
      · rw [hempty] at hx0
        injection hx0 with hx0
        exact absurd hx0.symm hxne0
    · intro xl x hxl hx
      rw [hxl] at hx0
      injection hx0 with hx0
      subst hx0
      obtain ⟨x', hx', hitem⟩ :=
        synthWithWind_get? ba bs waveR.Location wl xl f.ForecastData hs0 i w hw
      rw [hx] at hx'
      injection hx' with hx'
      subst hx'
      rw [hitem]
      rfl

/-- The wave record of spec §8's concrete wind-fallback scenario:
surface wind speed 5.1, direction 190°. -/
def waveItemC7 : WaveForecastItem :=
  { Date := "20260103", Time := "1200", SurfaceWindSpeed := 51/10, SurfaceWindDirection := 190
    PrimarySwellWaveHeight := 2, PrimarySwellPeriod := 10, PrimarySwellDirection := 200
    SecondarySwellWaveHeight := 1, SecondarySwellPeriod := 6, SecondarySwellDirection := 120
    WindSwellWaveHeight := 3/10, WindSwellPeriod := 3, WindSwellDirection := 200 }

/-- Wave forecast carrying `waveItemC7`. -/
def waveC7 : WaveForecast :=
  ⟨⟨"multi_1.at_10m", Metric⟩, ⟨41, 288, -5, "gp7"⟩, some [waveItemC7]⟩

/-- Absent wind forecast for the C7 witness. -/
def windC7 : WindForecast :=
  ⟨⟨"gfs", Metric⟩, ⟨41, 288, 0, "gp7"⟩, none⟩

/-- The forecast `NewSurfForecast` produces on `waveC7`/`windC7`. -/
def forecastC7 : SurfForecast :=
  { Location := ⟨41, 288, 0, "b7"⟩, BeachAngle := 180, BeachSlope := 1/50
    Units := Metric
    ForecastData := [buildItem 180 (1/50) ⟨41, 288, -5, "gp7"⟩ waveItemC7 none]
    WaveModel := ⟨"multi_1.at_10m", Metric⟩, WaveModelLocation := ⟨41, 288, -5, "gp7"⟩
    WindModel := ⟨"gfs", Metric⟩, WindModelLocation := ⟨41, 288, 0, "gp7"⟩ }

/-- Witness for C7: with the wind series absent, the single output item's
wind fields are (5.1, −1, 190°) — exactly spec §8's scenario. -/
theorem wind_fields_spec_witness :
    (forecastC7.ForecastData.get? 0).map
        (fun it => (it.WindSpeed, it.WindGustSpeed, it.WindDirection))
      = some (51/10, -1, 190) :=
  (wind_fields_spec ⟨41, 288, 0, "b7"⟩ 180 (1/50) waveC7 windC7 forecastC7
      waveC7 windC7 rfl 0 [waveItemC7] waveItemC7 rfl rfl).1 (Or.inl rfl)

/-! ## Claim C10 — Metric normalization of output and inputs -/

/-- C10: every forecast `NewSurfForecast` returns is tagged Metric, and
the two input forecasts come back converted to Metric in place — changed
exactly when their model units were not Metric already. -/
theorem metric_normalization (loc : Location) (ba bs : ℚ) (waveF : WaveForecast)
    (windF : WindForecast) :
    (NewSurfForecast loc ba bs waveF windF).2.1.Model.Units = Metric
    ∧ (NewSurfForecast loc ba bs waveF windF).2.2.Model.Units = Metric
    ∧ (waveF.Model.Units = Metric → (NewSurfForecast loc ba bs waveF windF).2.1 = waveF)
    ∧ (windF.Model.Units = Metric → (NewSurfForecast loc ba bs waveF windF).2.2 = windF)
    ∧ (waveF.Model.Units ≠ Metric →
        (NewSurfForecast loc ba bs waveF windF).2.1 = waveF.ChangeUnits Metric)
    ∧ (windF.Model.Units ≠ Metric →
        (NewSurfForecast loc ba bs waveF windF).2.2 = windF.ChangeUnits Metric)
    ∧ (∀ f, (NewSurfForecast loc ba bs waveF windF).1 = .ok f → f.Units = Metric) := by
  refine ⟨?_, ?_, ?_, ?_, ?_, ?_, ?_⟩
  · show (normalizeWave waveF).Model.Units = Metric
    unfold normalizeWave WaveForecast.ChangeUnits
    split_ifs with h1
    · rfl
    · exact not_ne_iff.mp h1
  · show (normalizeWind windF).Model.Units = Metric
    unfold normalizeWind WindForecast.ChangeUnits
    split_ifs with h1
    · rfl
    · exact not_ne_iff.mp h1
  · intro h
    show normalizeWave waveF = waveF
    unfold normalizeWave
    rw [if_neg (by simp [h])]
  · intro h
    show normalizeWind windF = windF
    unfold normalizeWind
    rw [if_neg (by simp [h])]
  · intro h
    show normalizeWave waveF = waveF.ChangeUnits Metric
    unfold normalizeWave
    rw [if_pos h]
  · intro h
    show normalizeWind windF = windF.ChangeUnits Metric
    unfold normalizeWind
    rw [if_pos h]
  · intro f hok
    exact (synthesize_ok_data loc ba bs (normalizeWave waveF) (normalizeWind windF) f hok).1

/-- An English-units wave forecast for the C10 witness. -/
def waveEng : WaveForecast :=
  ⟨⟨"multi_1.at_10m", English⟩, ⟨41, 288, -5, "gpe"⟩, some [waveItemA]⟩

/-- A Metric wind forecast for the C10 witness. -/
def windMet : WindForecast :=
  ⟨⟨"gfs", Metric⟩, ⟨41, 288, 0, "gpe"⟩, none⟩

/-- Witness for C10: the English wave input comes back as its Metric
conversion, while the already-Metric wind input comes back unchanged. -/
theorem metric_normalization_witness :
    (NewSurfForecast ⟨41, 288, 0, "be"⟩ 180 (1/50) waveEng windMet).2.1
        = waveEng.ChangeUnits Metric
    ∧ (NewSurfForecast ⟨41, 288, 0, "be"⟩ 180 (1/50) waveEng windMet).2.2 = windMet :=
  ⟨(metric_normalization ⟨41, 288, 0, "be"⟩ 180 (1/50) waveEng windMet).2.2.2.2.1
      (by decide),
   (metric_normalization ⟨41, 288, 0, "be"⟩ 180 (1/50) waveEng windMet).2.2.2.1 rfl⟩

/-! ## Claim C8 — idempotence of the latest-report merge -/

/-- Merging a buoy reading into itself changes nothing. -/
theorem mergeLatest_self (x : BuoyItem) : x.MergeLatestBuoyReading x = x := rfl

/-- C8: parsing the same latest-shape raw report twice into a buoy whose
observation series starts nil or empty yields exactly the same observation
data as parsing it once — the second parse merges the identical item over
itself. Stated for every parsing environment (the external float/time
parsers and the directional heuristic), every starting buoy and every raw
report. -/
theorem parseLatest_idempotent (env : ParseEnv) (b : Buoy) (raw : String)
    (hempty : b.BuoyData = none ∨ b.BuoyData = some []) (b1 : Buoy)
    (h1 : b.ParseRawLatestBuoyData env raw = .ok b1) :
    b1.ParseRawLatestBuoyData env raw = .ok b1 := by
  unfold Buoy.ParseRawLatestBuoyData at h1 ⊢
  by_cases hc : (goSplit raw '\n').length < 6
  · rw [if_pos hc] at h1
    exact absurd h1 (by simp)
  · rw [if_neg hc] at h1
    rw [if_neg hc]
    rcases hempty with he | he
    · simp only [he] at h1
      injection h1 with h1
      subst h1
      rfl
    · simp only [he] at h1
      injection h1 with h1
      subst h1
      rfl

/-- Environment for the C8 witness: constant-zero external parsers and the
identity directional heuristic. -/
def parseEnvW : ParseEnv := ⟨fun _ => 0, fun _ => 0, id⟩

/-- A buoy with a nil observation series, for the C8 witness. -/
def parseBuoyW : Buoy := ⟨"44097", none⟩

/-- A six-line raw latest report, for the C8 witness. -/
def parseRawW : String := "a\nb\nc\nd\ne\nf"

/-- Witness for C8: after one concrete parse the series holds the single
parsed observation, and a second parse of the same report reproduces it. -/
theorem parseLatest_idempotent_witness :
    Buoy.ParseRawLatestBuoyData parseEnvW ⟨"44097", some [BuoyItem.empty]⟩ parseRawW
      = .ok ⟨"44097", some [BuoyItem.empty]⟩ :=
  parseLatest_idempotent parseEnvW parseBuoyW parseRawW (Or.inl rfl)
    ⟨"44097", some [BuoyItem.empty]⟩ (by rfl)

end Surfnerd
